import Mathlib

/-! # Journal Scraper proxy server: the four fetching handlers

Shallow embedding of `src/server/proxy-server.js`:

* `GET /proxy`                (`proxy`, lines 35-72)
* `POST /bulk-proxy`          (`bulkProxy`, lines 75-137)
* `GET /check-website`        (`checkWebsite`, lines 140-181)
* `POST /bulk-check-websites` (`bulkCheckWebsites`, lines 184-244)

The handlers are `async` functions whose only interaction with the outside is
`fetch`, `response.text()` and `setTimeout`.  Each handler is rendered as a pure
function of the request and of a fetch oracle, returning the reply handed to
`res` together with the ordered list of effects it performed.  Console logging
is left out: it never influences control flow or the reply.
-/

namespace ProxyServer

/-! ## The outside world -/

/-- Options object passed as second argument of `fetch`. -/
structure FetchOptions where
  timeout : Nat
  userAgent : String
  deriving DecidableEq, Repr

/-- Header value used by all four handlers. -/
def userAgent : String :=
  "Mozilla/5.0 (Windows NT 10.0; Win64; x64) AppleWebKit/537.36"

/-- Options of `GET /proxy` and `POST /bulk-proxy` (lines 48-53, 95-100). -/
def proxyOptions : FetchOptions := { timeout := 30000, userAgent := userAgent }

/-- Options of `GET /check-website` and `POST /bulk-check-websites`
(lines 153-158, 203-208). -/
def checkOptions : FetchOptions := { timeout := 15000, userAgent := userAgent }

/-- A response object as far as the handlers look at it: the fields `ok`,
`status`, `statusText`, and what `await response.text()` does when it is called
(`.error m`: it throws an error with message `m`; `.ok b`: it yields body `b`).
`ok` is kept independent of `status`: the handlers never relate the two. -/
structure Response where
  ok : Bool
  status : Nat
  statusText : String
  text : Except String String

/-- What one `await fetch(url, options)` does: it yields a response, or it
throws an error whose `message` is the given string. -/
inductive FetchResult where
  | returned (r : Response)
  | threw (message : String)

/-- The fetch oracle.  `fetch k url options` is the behaviour of the call
`fetch(url, options)` when `k` fetch calls were already made by the running
handler; no further assumption is made, so successive calls are unrelated. -/
abbrev Fetch := Nat → String → FetchOptions → FetchResult

/-- Observable effects of a handler, in the order they happen. -/
inductive Effect where
  | fetch (url : String) (options : FetchOptions)
  | readText
  | delay (ms : Int)
  deriving DecidableEq, Repr

/-- The url of a fetch call, `none` for any other effect. -/
def Effect.fetchUrl? : Effect → Option String
  | .fetch url _ => some url
  | _ => none

/-- The duration of a delay, `none` for any other effect. -/
def Effect.delayMs? : Effect → Option Int
  | .delay ms => some ms
  | _ => none

/-- Whether the effect is a body read. -/
def Effect.isReadText : Effect → Bool
  | .readText => true
  | _ => false

/-- The urls of the fetch calls recorded in an effect list, in order. -/
def fetchedUrls (trace : List Effect) : List String :=
  trace.filterMap Effect.fetchUrl?

/-- Number of fetch calls recorded in an effect list. -/
def fetchCalls (trace : List Effect) : Nat :=
  (fetchedUrls trace).length

/-- The durations of the delays recorded in an effect list, in order. -/
def delays (trace : List Effect) : List Int :=
  trace.filterMap Effect.delayMs?

/-- The fetch calls and delays of an effect list (body reads dropped). -/
def pacing (trace : List Effect) : List Effect :=
  trace.filter (fun e => !e.isReadText)

/-! ## Requests -/

/-- The value found under `urls` in the JSON request body.  `undefined` is the
absent key.  Array items are the url strings of the data model. -/
inductive UrlsValue where
  | undefined
  | null
  | bool (b : Bool)
  | number (n : Int)
  | string (s : String)
  | object
  | array (items : List String)

/-- JavaScript truthiness, as used by `!urls`. -/
def UrlsValue.truthy : UrlsValue → Bool
  | .undefined => false
  | .null => false
  | .bool b => b
  | .number n => n != 0
  | .string s => s != ""
  | .object => true
  | .array _ => true

/-- The function `Array.isArray`. -/
def UrlsValue.isArray : UrlsValue → Bool
  | .array _ => true
  | _ => false

/-- Body of the two POST requests: `urls`, and `delay` (`none` when the key is
absent, in which case the destructuring default `1000` applies). -/
structure BulkBody where
  urls : UrlsValue
  delay : Option Int

/-- The destructuring `delay = 1000` (lines 76, 185). -/
def BulkBody.delayMs (body : BulkBody) : Int :=
  match body.delay with
  | some d => d
  | none => 1000

/-! ## Replies -/

/-- One element of `results` in `POST /bulk-proxy`.  `html := none` is `null`;
`status`/`error` are `none` when the object literal has no such key. -/
structure ProxyOutcome where
  url : String
  html : Option String
  success : Bool
  status : Option Nat
  error : Option String
  index : Nat
  deriving DecidableEq, Repr

/-- One element of `results` in `POST /bulk-check-websites`. -/
structure CheckOutcome where
  url : String
  status : Option Nat
  statusText : Option String
  accessible : Bool
  error : Option String
  success : Bool
  index : Nat
  deriving DecidableEq, Repr

/-- JSON sent by `POST /bulk-proxy` (lines 131-136). -/
structure BulkProxyResult where
  total : Nat
  success : Nat
  failed : Nat
  results : List ProxyOutcome
  deriving DecidableEq, Repr

/-- JSON sent by `POST /bulk-check-websites` (lines 238-243). -/
structure BulkCheckResult where
  total : Nat
  accessible : Nat
  inaccessible : Nat
  results : List CheckOutcome
  deriving DecidableEq, Repr

/-- Reply of a POST handler: `res.status(400).json({error})` or `res.json(body)`. -/
inductive BulkReply (β : Type) where
  | badRequest (error : String)
  | json (body : β)
  deriving DecidableEq, Repr

/-- Reply of `GET /proxy`. -/
inductive ProxyReply where
  | badRequest (error usage : String)
  | sent (html : String)
  | failed (error details url : String)
  deriving DecidableEq, Repr

/-- JSON sent with status 200 by `GET /check-website` (lines 160-166, 174-179). -/
structure CheckResult where
  url : String
  status : Option Nat
  statusText : Option String
  accessible : Bool
  error : Option String
  timestamp : String
  deriving DecidableEq, Repr

/-- Reply of `GET /check-website`. -/
inductive CheckReply where
  | badRequest (error usage : String)
  | json (result : CheckResult)
  deriving DecidableEq, Repr

/-! ## `GET /proxy` -/

/-- The template literal of line 56. -/
def httpErrorMessage (r : Response) : String :=
  "HTTP " ++ toString r.status ++ ": " ++ r.statusText

/-- Handler of `GET /proxy` (lines 35-72).  `url` is `req.query.url`
(`none`: absent). -/
def proxy (fetch : Fetch) (url : Option String) : ProxyReply × List Effect :=
  match url with
  | none => (.badRequest "URL parameter is required" "/proxy?url=ENCODED_URL", [])
  | some url =>
    if url = "" then
      (.badRequest "URL parameter is required" "/proxy?url=ENCODED_URL", [])
    else
      match fetch 0 url proxyOptions with
      | .threw message =>
        (.failed "Failed to fetch URL" message url, [.fetch url proxyOptions])
      | .returned response =>
        if !response.ok then
          (.failed "Failed to fetch URL" (httpErrorMessage response) url,
            [.fetch url proxyOptions])
        else
          match response.text with
          | .error message =>
            (.failed "Failed to fetch URL" message url,
              [.fetch url proxyOptions, .readText])
          | .ok html => (.sent html, [.fetch url proxyOptions, .readText])

/-! ## `POST /bulk-proxy` -/

/-- State of a batch loop: the `results` array and the effects so far. -/
structure LoopState (α : Type) where
  results : List α
  trace : List Effect

/-- The `try`/`catch` statement of one iteration of the `/bulk-proxy` loop
(lines 92-123): the object pushed onto `results` and the effects performed.
`calls` is the number of fetch calls made before. -/
def bulkProxyAttempt (fetch : Fetch) (calls : Nat) (url : String) (i : Nat) :
    ProxyOutcome × List Effect :=
  match fetch calls url proxyOptions with
  | .threw message =>
    ({ url := url, html := none, success := false, status := none,
       error := some message, index := i }, [.fetch url proxyOptions])
  | .returned response =>
    if response.ok then
      match response.text with
      | .error message =>
        ({ url := url, html := none, success := false, status := none,
           error := some message, index := i },
          [.fetch url proxyOptions, .readText])
      | .ok html =>
        ({ url := url, html := some html, success := response.ok,
           status := some response.status, error := none, index := i },
          [.fetch url proxyOptions, .readText])
    else
      ({ url := url, html := none, success := response.ok,
         status := some response.status, error := none, index := i },
        [.fetch url proxyOptions])

/-- The `for` loop of `/bulk-proxy` (lines 89-129).  The list argument holds
`urls[i]`, `urls[i+1]`, ...: the items not visited yet; `n` is `urls.length`
and `i` the loop counter. -/
def bulkProxyLoop (fetch : Fetch) (n : Nat) (delay : Int) :
    List String → Nat → LoopState ProxyOutcome → LoopState ProxyOutcome
  | [], _, st => st
  | url :: rest, i, st =>
    let attempt := bulkProxyAttempt fetch (fetchCalls st.trace) url i
    let st1 : LoopState ProxyOutcome :=
      { results := st.results ++ [attempt.1], trace := st.trace ++ attempt.2 }
    let st2 : LoopState ProxyOutcome :=
      if i < n - 1 then { st1 with trace := st1.trace ++ [.delay delay] } else st1
    bulkProxyLoop fetch n delay rest (i + 1) st2

/-- Handler of `POST /bulk-proxy` (lines 75-137). -/
def bulkProxy (fetch : Fetch) (body : BulkBody) :
    BulkReply BulkProxyResult × List Effect :=
  if !body.urls.truthy || !body.urls.isArray then
    (.badRequest "URLs array is required in request body", [])
  else
    match body.urls with
    | .array urls =>
      let st := bulkProxyLoop fetch urls.length body.delayMs urls 0
        { results := [], trace := [] }
      (.json { total := urls.length
               success := (st.results.filter (fun r => r.success)).length
               failed := (st.results.filter (fun r => !r.success)).length
               results := st.results }, st.trace)
    | _ => (.badRequest "URLs array is required in request body", [])

/-! ## `GET /check-website` -/

/-- Handler of `GET /check-website` (lines 140-181).  `now` is the value of
`new Date().toISOString()` when the result object is built. -/
def checkWebsite (fetch : Fetch) (now : String) (url : Option String) :
    CheckReply × List Effect :=
  match url with
  | none =>
    (.badRequest "URL parameter is required" "/check-website?url=ENCODED_URL", [])
  | some url =>
    if url = "" then
      (.badRequest "URL parameter is required" "/check-website?url=ENCODED_URL", [])
    else
      match fetch 0 url checkOptions with
      | .returned response =>
        (.json { url := url, status := some response.status,
                 statusText := some response.statusText,
                 accessible := response.ok, error := none, timestamp := now },
          [.fetch url checkOptions])
      | .threw message =>
        (.json { url := url, status := none, statusText := none,
                 accessible := false, error := some message, timestamp := now },
          [.fetch url checkOptions])

/-! ## `POST /bulk-check-websites` -/

/-- The `try`/`catch` statement of one iteration of the `/bulk-check-websites`
loop (lines 200-230). -/
def bulkCheckAttempt (fetch : Fetch) (calls : Nat) (url : String) (i : Nat) :
    CheckOutcome × List Effect :=
  match fetch calls url checkOptions with
  | .returned response =>
    ({ url := url, status := some response.status,
       statusText := some response.statusText, accessible := response.ok,
       error := none, success := true, index := i }, [.fetch url checkOptions])
  | .threw message =>
    ({ url := url, status := none, statusText := none, accessible := false,
       error := some message, success := false, index := i },
      [.fetch url checkOptions])

/-- The `for` loop of `/bulk-check-websites` (lines 197-236); arguments as in
`bulkProxyLoop`. -/
def bulkCheckLoop (fetch : Fetch) (n : Nat) (delay : Int) :
    List String → Nat → LoopState CheckOutcome → LoopState CheckOutcome
  | [], _, st => st
  | url :: rest, i, st =>
    let attempt := bulkCheckAttempt fetch (fetchCalls st.trace) url i
    let st1 : LoopState CheckOutcome :=
      { results := st.results ++ [attempt.1], trace := st.trace ++ attempt.2 }
    let st2 : LoopState CheckOutcome :=
      if i < n - 1 then { st1 with trace := st1.trace ++ [.delay delay] } else st1
    bulkCheckLoop fetch n delay rest (i + 1) st2

/-- Handler of `POST /bulk-check-websites` (lines 184-244). -/
def bulkCheckWebsites (fetch : Fetch) (body : BulkBody) :
    BulkReply BulkCheckResult × List Effect :=
  if !body.urls.truthy || !body.urls.isArray then
    (.badRequest "URLs array is required in request body", [])
  else
    match body.urls with
    | .array urls =>
      let st := bulkCheckLoop fetch urls.length body.delayMs urls 0
        { results := [], trace := [] }
      (.json { total := urls.length
               accessible := (st.results.filter (fun r => r.accessible)).length
               inaccessible := (st.results.filter (fun r => !r.accessible)).length
               results := st.results }, st.trace)
    | _ => (.badRequest "URLs array is required in request body", [])

/-! ## Sample oracles used for concrete runs -/

/-- A server that answers every request with 404. -/
def fetchNotFound : Fetch := fun _ _ _ =>
  .returned { ok := false, status := 404, statusText := "Not Found", text := .ok "gone" }

/-- A server that answers every request with 500. -/
def fetchServerError : Fetch := fun _ _ _ =>
  .returned { ok := false, status := 500, statusText := "Internal Server Error",
              text := .ok "oops" }

/-- A server answering 200 with body `hello`. -/
def fetchHello : Fetch := fun _ _ _ =>
  .returned { ok := true, status := 200, statusText := "OK", text := .ok "hello" }

/-- A network in which every call throws (for instance a DNS failure). -/
def fetchDown : Fetch := fun _ _ _ => .threw "getaddrinfo ENOTFOUND"

/-- First call 200 `hello`, second call throws, later calls answer 404. -/
def fetchMixed : Fetch := fun k _ _ =>
  match k with
  | 0 => .returned { ok := true, status := 200, statusText := "OK", text := .ok "hello" }
  | 1 => .threw "network timeout"
  | _ => .returned { ok := false, status := 404, statusText := "Not Found",
                     text := .ok "gone" }

/-! ## Closed forms used in the proofs -/

/-- The common shape of the two batch loops: `attempt calls url i` is the
`try`/`catch` statement of one iteration. -/
def pacedLoop {α : Type} (attempt : Nat → String → Nat → α × List Effect)
    (n : Nat) (delay : Int) : List String → Nat → LoopState α → LoopState α
  | [], _, st => st
  | url :: rest, i, st =>
    let a := attempt (fetchCalls st.trace) url i
    pacedLoop attempt n delay rest (i + 1)
      { results := st.results ++ [a.1]
        trace := st.trace ++ a.2 ++ (if i < n - 1 then [Effect.delay delay] else []) }

/-- Outcomes pushed by a batch loop started at counter `i`, when the `k`-th
iteration makes the `k`-th fetch call. -/
def outcomesFrom {α : Type} (attempt : Nat → String → Nat → α × List Effect) :
    Nat → List String → List α
  | _, [] => []
  | i, url :: rest => (attempt i url i).1 :: outcomesFrom attempt (i + 1) rest

/-- Effects performed by a batch loop started at counter `i`, when the `k`-th
iteration makes the `k`-th fetch call. -/
def effectsFrom {α : Type} (attempt : Nat → String → Nat → α × List Effect)
    (n : Nat) (delay : Int) : Nat → List String → List Effect
  | _, [] => []
  | i, url :: rest =>
    (attempt i url i).2 ++ (if i < n - 1 then [Effect.delay delay] else []) ++
      effectsFrom attempt n delay (i + 1) rest

/-! ## Concrete runs -/

example : (bulkProxy fetchMixed { urls := .array ["a", "b", "c"], delay := some 0 }).1 =
    .json { total := 3, success := 1, failed := 2, results := [
      { url := "a", html := some "hello", success := true, status := some 200,
        error := none, index := 0 },
      { url := "b", html := none, success := false, status := none,
        error := some "network timeout", index := 1 },
      { url := "c", html := none, success := false, status := some 404,
        error := none, index := 2 }] } := by decide

/-! ## Effect lists -/

theorem fetchedUrls_append (a b : List Effect) :
    fetchedUrls (a ++ b) = fetchedUrls a ++ fetchedUrls b := by
  simp [fetchedUrls, List.filterMap_append]

theorem fetchCalls_append (a b : List Effect) :
    fetchCalls (a ++ b) = fetchCalls a + fetchCalls b := by
  simp [fetchCalls, fetchedUrls_append]

theorem delays_append (a b : List Effect) : delays (a ++ b) = delays a ++ delays b := by
  simp [delays, List.filterMap_append]

theorem pacing_append (a b : List Effect) : pacing (a ++ b) = pacing a ++ pacing b := by
  simp [pacing, List.filter_append]

theorem fetchedUrls_pacing (t : List Effect) : fetchedUrls (pacing t) = fetchedUrls t := by
  induction t with
  | nil => rfl
  | cons e t ih =>
    cases e <;> simp_all [fetchedUrls, pacing, List.filter_cons, Effect.isReadText,
      Effect.fetchUrl?]

theorem delays_pacing (t : List Effect) : delays (pacing t) = delays t := by
  induction t with
  | nil => rfl
  | cons e t ih =>
    cases e <;> simp_all [delays, pacing, List.filter_cons, Effect.isReadText,
      Effect.delayMs?]

/-! ## The two loops have the common shape -/

theorem bulkProxyLoop_eq (fetch : Fetch) (n : Nat) (delay : Int) (rest : List String) :
    ∀ (i : Nat) (st : LoopState ProxyOutcome),
      bulkProxyLoop fetch n delay rest i st =
        pacedLoop (bulkProxyAttempt fetch) n delay rest i st := by
  induction rest with
  | nil => intro i st; rfl
  | cons url rest ih =>
    intro i st
    simp only [bulkProxyLoop, pacedLoop, ih]
    split <;> simp

theorem bulkCheckLoop_eq (fetch : Fetch) (n : Nat) (delay : Int) (rest : List String) :
    ∀ (i : Nat) (st : LoopState CheckOutcome),
      bulkCheckLoop fetch n delay rest i st =
        pacedLoop (bulkCheckAttempt fetch) n delay rest i st := by
  induction rest with
  | nil => intro i st; rfl
  | cons url rest ih =>
    intro i st
    simp only [bulkCheckLoop, pacedLoop, ih]
    split <;> simp

/-! ## Closed form of the common loop -/

theorem pacedLoop_closed {α : Type} (attempt : Nat → String → Nat → α × List Effect)
    (hone : ∀ c url i, fetchCalls (attempt c url i).2 = 1)
    (n : Nat) (delay : Int) (rest : List String) :
    ∀ (i : Nat) (st : LoopState α), fetchCalls st.trace = i →
      pacedLoop attempt n delay rest i st =
        { results := st.results ++ outcomesFrom attempt i rest
          trace := st.trace ++ effectsFrom attempt n delay i rest } := by
  induction rest with
  | nil => intro i st _; simp [pacedLoop, outcomesFrom, effectsFrom]
  | cons url rest ih =>
    intro i st hc
    have hnext : fetchCalls (st.trace ++ (attempt (fetchCalls st.trace) url i).2 ++
        (if i < n - 1 then [Effect.delay delay] else [])) = i + 1 := by
      rw [fetchCalls_append, fetchCalls_append, hone, hc]
      split <;> simp [fetchCalls, fetchedUrls, Effect.fetchUrl?]
    simp only [pacedLoop]
    rw [ih (i + 1) _ hnext]
    simp [outcomesFrom, effectsFrom, hc]

theorem outcomesFrom_length {α : Type} (attempt : Nat → String → Nat → α × List Effect)
    (rest : List String) : ∀ i, (outcomesFrom attempt i rest).length = rest.length := by
  induction rest with
  | nil => intro i; rfl
  | cons url rest ih => intro i; simp [outcomesFrom, ih]

theorem outcomesFrom_getElem? {α : Type} (attempt : Nat → String → Nat → α × List Effect)
    (rest : List String) : ∀ i j,
      (outcomesFrom attempt i rest)[j]? =
        (rest[j]?).map (fun url => (attempt (i + j) url (i + j)).1) := by
  induction rest with
  | nil => intro i j; simp [outcomesFrom]
  | cons url rest ih =>
    intro i j
    cases j with
    | zero => simp [outcomesFrom]
    | succ j =>
      simp only [outcomesFrom, List.getElem?_cons_succ, ih]
      have : i + 1 + j = i + (j + 1) := by omega
      rw [this]

theorem outcomesFrom_mem {α : Type} (attempt : Nat → String → Nat → α × List Effect)
    (rest : List String) : ∀ i o, o ∈ outcomesFrom attempt i rest →
      ∃ c url k, o = (attempt c url k).1 := by
  induction rest with
  | nil => intro i o h; simp [outcomesFrom] at h
  | cons url rest ih =>
    intro i o h
    simp only [outcomesFrom, List.mem_cons] at h
    rcases h with h | h
    · exact ⟨i, url, i, h⟩
    · exact ih (i + 1) o h

theorem pacing_effectsFrom {α : Type} (attempt : Nat → String → Nat → α × List Effect)
    (options : FetchOptions)
    (hpace : ∀ c url i, pacing (attempt c url i).2 = [Effect.fetch url options])
    (n : Nat) (delay : Int) (rest : List String) :
    ∀ i, i + rest.length = n →
      pacing (effectsFrom attempt n delay i rest) =
        List.intersperse (Effect.delay delay)
          (rest.map (fun url => Effect.fetch url options)) := by
  induction rest with
  | nil => intro i _; simp [effectsFrom, pacing]
  | cons url rest ih =>
    intro i hn
    cases rest with
    | nil =>
      have hlast : ¬ i < n - 1 := by simp at hn; omega
      simp only [effectsFrom, pacing_append, hpace, hlast, if_false]
      simp [pacing]
    | cons url2 rest =>
      have hmore : i < n - 1 := by simp at hn; omega
      have hrec := ih (i + 1) (by simp at hn ⊢; omega)
      simp only [effectsFrom, pacing_append, hpace, hmore, if_true] at hrec ⊢
      rw [hrec]
      simp [pacing, Effect.isReadText]

theorem fetchedUrls_intersperse (options : FetchOptions) (delay : Int) (items : List String) :
    fetchedUrls (List.intersperse (Effect.delay delay)
      (items.map (fun url => Effect.fetch url options))) = items := by
  induction items with
  | nil => rfl
  | cons url rest ih =>
    cases rest with
    | nil => simp [fetchedUrls, Effect.fetchUrl?]
    | cons url2 rest =>
      simp only [List.map_cons, List.intersperse_cons_cons] at ih ⊢
      simp only [fetchedUrls, List.filterMap_cons, Effect.fetchUrl?] at ih ⊢
      rw [ih]

theorem delays_intersperse (options : FetchOptions) (delay : Int) (items : List String) :
    delays (List.intersperse (Effect.delay delay)
      (items.map (fun url => Effect.fetch url options))) =
        List.replicate (items.length - 1) delay := by
  induction items with
  | nil => rfl
  | cons url rest ih =>
    cases rest with
    | nil => simp [delays, Effect.delayMs?]
    | cons url2 rest =>
      simp only [List.map_cons, List.intersperse_cons_cons] at ih ⊢
      simp only [delays, List.filterMap_cons, Effect.delayMs?] at ih ⊢
      rw [ih]
      simp [List.replicate_succ]

/-! ## One iteration -/

theorem bulkProxyAttempt_fetchCalls (fetch : Fetch) (c : Nat) (url : String) (i : Nat) :
    fetchCalls (bulkProxyAttempt fetch c url i).2 = 1 := by
  unfold bulkProxyAttempt
  split
  · rfl
  · split
    · split <;> rfl
    · rfl

theorem bulkProxyAttempt_pacing (fetch : Fetch) (c : Nat) (url : String) (i : Nat) :
    pacing (bulkProxyAttempt fetch c url i).2 = [Effect.fetch url proxyOptions] := by
  unfold bulkProxyAttempt
  split
  · rfl
  · split
    · split <;> rfl
    · rfl

theorem bulkProxyAttempt_url_index (fetch : Fetch) (c : Nat) (url : String) (i : Nat) :
    (bulkProxyAttempt fetch c url i).1.url = url ∧
      (bulkProxyAttempt fetch c url i).1.index = i := by
  unfold bulkProxyAttempt
  split
  · exact ⟨rfl, rfl⟩
  · split
    · split <;> exact ⟨rfl, rfl⟩
    · exact ⟨rfl, rfl⟩

theorem bulkCheckAttempt_fetchCalls (fetch : Fetch) (c : Nat) (url : String) (i : Nat) :
    fetchCalls (bulkCheckAttempt fetch c url i).2 = 1 := by
  unfold bulkCheckAttempt
  split <;> rfl

theorem bulkCheckAttempt_pacing (fetch : Fetch) (c : Nat) (url : String) (i : Nat) :
    pacing (bulkCheckAttempt fetch c url i).2 = [Effect.fetch url checkOptions] := by
  unfold bulkCheckAttempt
  split <;> rfl

theorem bulkCheckAttempt_url_index (fetch : Fetch) (c : Nat) (url : String) (i : Nat) :
    (bulkCheckAttempt fetch c url i).1.url = url ∧
      (bulkCheckAttempt fetch c url i).1.index = i := by
  unfold bulkCheckAttempt
  split <;> exact ⟨rfl, rfl⟩

/-! ## The batch handlers on an array -/

theorem bulkProxy_array (fetch : Fetch) (items : List String) (delay : Option Int) :
    bulkProxy fetch { urls := .array items, delay := delay } =
      (.json { total := items.length
               success := ((outcomesFrom (bulkProxyAttempt fetch) 0 items).filter
                 (fun r => r.success)).length
               failed := ((outcomesFrom (bulkProxyAttempt fetch) 0 items).filter
                 (fun r => !r.success)).length
               results := outcomesFrom (bulkProxyAttempt fetch) 0 items },
        effectsFrom (bulkProxyAttempt fetch) items.length (delay.getD 1000) 0 items) := by
  have hd : BulkBody.delayMs { urls := .array items, delay := delay } = delay.getD 1000 := by
    cases delay <;> rfl
  simp only [bulkProxy, UrlsValue.truthy, UrlsValue.isArray, Bool.not_true, Bool.or_self,
    Bool.false_eq_true, if_false, hd, bulkProxyLoop_eq]
  rw [pacedLoop_closed (bulkProxyAttempt fetch) (bulkProxyAttempt_fetchCalls fetch)
    items.length (delay.getD 1000) items 0 { results := [], trace := [] } rfl]
  simp

theorem bulkCheckWebsites_array (fetch : Fetch) (items : List String) (delay : Option Int) :
    bulkCheckWebsites fetch { urls := .array items, delay := delay } =
      (.json { total := items.length
               accessible := ((outcomesFrom (bulkCheckAttempt fetch) 0 items).filter
                 (fun r => r.accessible)).length
               inaccessible := ((outcomesFrom (bulkCheckAttempt fetch) 0 items).filter
                 (fun r => !r.accessible)).length
               results := outcomesFrom (bulkCheckAttempt fetch) 0 items },
        effectsFrom (bulkCheckAttempt fetch) items.length (delay.getD 1000) 0 items) := by
  have hd : BulkBody.delayMs { urls := .array items, delay := delay } = delay.getD 1000 := by
    cases delay <;> rfl
  simp only [bulkCheckWebsites, UrlsValue.truthy, UrlsValue.isArray, Bool.not_true,
    Bool.or_self, Bool.false_eq_true, if_false, hd, bulkCheckLoop_eq]
  rw [pacedLoop_closed (bulkCheckAttempt fetch) (bulkCheckAttempt_fetchCalls fetch)
    items.length (delay.getD 1000) items 0 { results := [], trace := [] } rfl]
  simp

theorem outcomesFrom_at {α : Type} (attempt : Nat → String → Nat → α × List Effect)
    (items : List String) (i : Fin items.length) :
    (outcomesFrom attempt 0 items)[i.val]? = some (attempt i.val items[i] i.val).1 := by
  rw [outcomesFrom_getElem?, List.getElem?_eq_getElem i.isLt]
  simp

/-! ## Order and index correlation -/

/-- C1: for every array `urls` of N items and every fetch oracle, both batch
handlers answer with a `results` list of length N in which, for every position
i below N, the outcome at i has `index` i and `url` equal to `urls[i]`. -/
theorem batch_results_keep_input_order (fetch : Fetch) (items : List String)
    (delay : Option Int) :
    (∃ body trace,
        bulkProxy fetch { urls := .array items, delay := delay } = (.json body, trace) ∧
        body.results.length = items.length ∧
        ∀ i : Fin items.length, ∃ o, body.results[i.val]? = some o ∧
          o.index = i.val ∧ o.url = items[i]) ∧
    (∃ body trace,
        bulkCheckWebsites fetch { urls := .array items, delay := delay } =
          (.json body, trace) ∧
        body.results.length = items.length ∧
        ∀ i : Fin items.length, ∃ o, body.results[i.val]? = some o ∧
          o.index = i.val ∧ o.url = items[i]) := by
  constructor
  · refine ⟨_, _, bulkProxy_array fetch items delay, outcomesFrom_length _ _ _, ?_⟩
    intro i
    refine ⟨_, outcomesFrom_at _ items i, ?_, ?_⟩
    · exact (bulkProxyAttempt_url_index fetch _ _ _).2
    · exact (bulkProxyAttempt_url_index fetch _ _ _).1
  · refine ⟨_, _, bulkCheckWebsites_array fetch items delay, outcomesFrom_length _ _ _, ?_⟩
    intro i
    refine ⟨_, outcomesFrom_at _ items i, ?_, ?_⟩
    · exact (bulkCheckAttempt_url_index fetch _ _ _).2
    · exact (bulkCheckAttempt_url_index fetch _ _ _).1

/-! ## Failure isolation and pacing -/

/-- C3: for every array `urls` of N items and every fetch oracle, each batch
handler calls fetch exactly once per item, in input order (the fetched urls are
exactly `urls`), whatever the calls do, and ends with a complete batch reply
(`total` and the number of outcomes are N) instead of an error reply. -/
theorem batch_fetches_each_item_once_in_order (fetch : Fetch) (items : List String)
    (delay : Option Int) :
    (∃ body trace,
        bulkProxy fetch { urls := .array items, delay := delay } = (.json body, trace) ∧
        fetchedUrls trace = items ∧ fetchCalls trace = items.length ∧
        body.total = items.length ∧ body.results.length = items.length) ∧
    (∃ body trace,
        bulkCheckWebsites fetch { urls := .array items, delay := delay } =
          (.json body, trace) ∧
        fetchedUrls trace = items ∧ fetchCalls trace = items.length ∧
        body.total = items.length ∧ body.results.length = items.length) := by
  have hp := pacing_effectsFrom (bulkProxyAttempt fetch) proxyOptions
    (bulkProxyAttempt_pacing fetch) items.length (delay.getD 1000) items 0 (by simp)
  have hc := pacing_effectsFrom (bulkCheckAttempt fetch) checkOptions
    (bulkCheckAttempt_pacing fetch) items.length (delay.getD 1000) items 0 (by simp)
  have hpu := fetchedUrls_pacing
    (effectsFrom (bulkProxyAttempt fetch) items.length (delay.getD 1000) 0 items)
  have hcu := fetchedUrls_pacing
    (effectsFrom (bulkCheckAttempt fetch) items.length (delay.getD 1000) 0 items)
  rw [hp, fetchedUrls_intersperse] at hpu
  rw [hc, fetchedUrls_intersperse] at hcu
  constructor
  · refine ⟨_, _, bulkProxy_array fetch items delay, hpu.symm, ?_, rfl,
      outcomesFrom_length _ _ _⟩
    rw [fetchCalls, ← hpu]
  · refine ⟨_, _, bulkCheckWebsites_array fetch items delay, hcu.symm, ?_, rfl,
      outcomesFrom_length _ _ _⟩
    rw [fetchCalls, ← hcu]

/-- C4: for every array `urls` and every delay value (1000 when the request
gives none), the fetch calls and delays of each batch handler are the fetch
calls of the items in order with exactly one delay of that duration between two
successive fetch calls and none after the last one; so there are N-1 delays for
N >= 1 items, and none for a single item. -/
theorem batch_delays_only_between_items (fetch : Fetch) (items : List String)
    (delay : Option Int) :
    (∃ body trace,
        bulkProxy fetch { urls := .array items, delay := delay } = (.json body, trace) ∧
        pacing trace = List.intersperse (Effect.delay (delay.getD 1000))
          (items.map (fun url => Effect.fetch url proxyOptions)) ∧
        delays trace = List.replicate (items.length - 1) (delay.getD 1000)) ∧
    (∃ body trace,
        bulkCheckWebsites fetch { urls := .array items, delay := delay } =
          (.json body, trace) ∧
        pacing trace = List.intersperse (Effect.delay (delay.getD 1000))
          (items.map (fun url => Effect.fetch url checkOptions)) ∧
        delays trace = List.replicate (items.length - 1) (delay.getD 1000)) := by
  have hp := pacing_effectsFrom (bulkProxyAttempt fetch) proxyOptions
    (bulkProxyAttempt_pacing fetch) items.length (delay.getD 1000) items 0 (by simp)
  have hc := pacing_effectsFrom (bulkCheckAttempt fetch) checkOptions
    (bulkCheckAttempt_pacing fetch) items.length (delay.getD 1000) items 0 (by simp)
  constructor
  · refine ⟨_, _, bulkProxy_array fetch items delay, hp, ?_⟩
    rw [← delays_pacing, hp, delays_intersperse]
  · refine ⟨_, _, bulkCheckWebsites_array fetch items delay, hc, ?_⟩
    rw [← delays_pacing, hc, delays_intersperse]

/-! ## Aggregate counts -/

/-- C7: for every array `urls` and every fetch oracle, `success + failed ==
total == urls.length` in `/bulk-proxy` and `accessible + inaccessible == total
== urls.length` in `/bulk-check-websites`, the first count being the number of
outcomes whose flag is true and the second the number whose flag is false. -/
theorem batch_counts_add_up_to_total (fetch : Fetch) (items : List String)
    (delay : Option Int) :
    (∃ body trace,
        bulkProxy fetch { urls := .array items, delay := delay } = (.json body, trace) ∧
        body.success + body.failed = body.total ∧ body.total = items.length ∧
        body.success = body.results.countP (fun o => o.success = true) ∧
        body.failed = body.results.countP (fun o => o.success = false)) ∧
    (∃ body trace,
        bulkCheckWebsites fetch { urls := .array items, delay := delay } =
          (.json body, trace) ∧
        body.accessible + body.inaccessible = body.total ∧ body.total = items.length ∧
        body.accessible = body.results.countP (fun o => o.accessible = true) ∧
        body.inaccessible = body.results.countP (fun o => o.accessible = false)) := by
  constructor
  · refine ⟨_, _, bulkProxy_array fetch items delay, ?_, rfl, ?_, ?_⟩
    · have h := @List.length_eq_length_filter_add _
        (outcomesFrom (bulkProxyAttempt fetch) 0 items) (fun r => r.success)
      rw [outcomesFrom_length] at h
      exact h.symm
    · simp [List.countP_eq_length_filter]
    · simp [List.countP_eq_length_filter]
  · refine ⟨_, _, bulkCheckWebsites_array fetch items delay, ?_, rfl, ?_, ?_⟩
    · have h := @List.length_eq_length_filter_add _
        (outcomesFrom (bulkCheckAttempt fetch) 0 items) (fun r => r.accessible)
      rw [outcomesFrom_length] at h
      exact h.symm
    · simp [List.countP_eq_length_filter]
    · simp [List.countP_eq_length_filter]

/-! ## Validation -/

/-- C2, as stated, fails for the empty list: with `urls` equal to `[]` both batch
handlers answer with an empty batch (total 0) and not with the 400 reply. -/
theorem empty_urls_array_is_not_rejected :
    bulkProxy fetchHello { urls := .array [], delay := none } =
        (.json { total := 0, success := 0, failed := 0, results := [] }, []) ∧
      bulkCheckWebsites fetchHello { urls := .array [], delay := none } =
        (.json { total := 0, accessible := 0, inaccessible := 0, results := [] }, []) ∧
      (bulkProxy fetchHello { urls := .array [], delay := none }).1 ≠
        .badRequest "URLs array is required in request body" ∧
      (bulkCheckWebsites fetchHello { urls := .array [], delay := none }).1 ≠
        .badRequest "URLs array is required in request body" := by
  refine ⟨rfl, rfl, ?_, ?_⟩ <;> decide

/-- C2 amended: with `urls` absent from the request body each batch handler
rejects the request with the 400 reply 'URLs array is required in request body'
and makes no fetch call; with `urls` equal to the empty list each batch handler
makes no fetch call either, and answers with the empty batch (total 0, both
counts 0, no outcome). -/
theorem absent_urls_rejected_and_empty_urls_fetch_nothing (fetch : Fetch)
    (delay : Option Int) :
    bulkProxy fetch { urls := .undefined, delay := delay } =
        (.badRequest "URLs array is required in request body", []) ∧
      bulkCheckWebsites fetch { urls := .undefined, delay := delay } =
        (.badRequest "URLs array is required in request body", []) ∧
      bulkProxy fetch { urls := .array [], delay := delay } =
        (.json { total := 0, success := 0, failed := 0, results := [] }, []) ∧
      bulkCheckWebsites fetch { urls := .array [], delay := delay } =
        (.json { total := 0, accessible := 0, inaccessible := 0, results := [] }, []) ∧
      fetchCalls (bulkProxy fetch { urls := .undefined, delay := delay }).2 = 0 ∧
      fetchCalls (bulkCheckWebsites fetch { urls := .undefined, delay := delay }).2 = 0 ∧
      fetchCalls (bulkProxy fetch { urls := .array [], delay := delay }).2 = 0 ∧
      fetchCalls (bulkCheckWebsites fetch { urls := .array [], delay := delay }).2 = 0 :=
  ⟨rfl, rfl, rfl, rfl, rfl, rfl, rfl, rfl⟩

/-! ## Outcomes of `/bulk-proxy` -/

/-- C5, as stated, fails for a non-ok response: a 404 answer is recorded with
`success == false`, `html == null` and `status == 404`, and without any error
message. -/
theorem bulk_proxy_records_no_error_message_for_404 :
    fetchNotFound 0 "https://notfound.example" proxyOptions =
        .returned { ok := false, status := 404, statusText := "Not Found",
                    text := .ok "gone" } ∧
      bulkProxy fetchNotFound { urls := .array ["https://notfound.example"], delay := none } =
        (.json { total := 1, success := 0, failed := 1, results := [
            { url := "https://notfound.example", html := none, success := false,
              status := some 404, error := none, index := 0 }] },
          [.fetch "https://notfound.example" proxyOptions]) :=
  ⟨rfl, rfl⟩

/-- C5 amended: in `/bulk-proxy`, for every item whose fetch throws, the outcome
has `success == false`, `html == null` and `error` equal to the thrown message
(and no `status`); for every item whose fetch returns a response with a non-ok
status, the outcome has `success == false`, `html == null`, `status` equal to
that HTTP status, and no `error` field. -/
theorem bulk_proxy_failed_item_outcome (fetch : Fetch) (items : List String)
    (delay : Option Int) (i : Fin items.length) :
    ∃ body trace o,
      bulkProxy fetch { urls := .array items, delay := delay } = (.json body, trace) ∧
      body.results[i.val]? = some o ∧
      (∀ m, fetch i.val items[i] proxyOptions = .threw m →
        o = { url := items[i], html := none, success := false, status := none,
              error := some m, index := i.val }) ∧
      (∀ r, fetch i.val items[i] proxyOptions = .returned r → r.ok = false →
        o = { url := items[i], html := none, success := false,
              status := some r.status, error := none, index := i.val }) := by
  refine ⟨_, _, _, bulkProxy_array fetch items delay, outcomesFrom_at _ items i, ?_, ?_⟩
  · intro m hm
    unfold bulkProxyAttempt
    rw [hm]
  · intro r hr hok
    unfold bulkProxyAttempt
    rw [hr]
    simp [hok]

/-- C5 amended, at concrete inputs: a one-item batch against a network that
throws, and one against a server answering 404. -/
theorem bulk_proxy_failed_item_outcome_witness :
    (∃ body trace,
        bulkProxy fetchDown { urls := .array ["https://timeout.example"], delay := none } =
          (.json body, trace) ∧
        body.results[0]? = some
          { url := "https://timeout.example", html := none, success := false,
            status := none, error := some "getaddrinfo ENOTFOUND", index := 0 }) ∧
    (∃ body trace,
        bulkProxy fetchNotFound { urls := .array ["https://notfound.example"],
                                  delay := none } = (.json body, trace) ∧
        body.results[0]? = some
          { url := "https://notfound.example", html := none, success := false,
            status := some 404, error := none, index := 0 }) := by
  constructor
  · obtain ⟨body, trace, o, hrun, hres, hthrew, _⟩ :=
      bulk_proxy_failed_item_outcome fetchDown ["https://timeout.example"] none
        ⟨0, by decide⟩
    exact ⟨body, trace, hrun, by rw [hres, hthrew _ rfl]; rfl⟩
  · obtain ⟨body, trace, o, hrun, hres, _, hnonok⟩ :=
      bulk_proxy_failed_item_outcome fetchNotFound ["https://notfound.example"] none
        ⟨0, by decide⟩
    exact ⟨body, trace, hrun, by rw [hres, hnonok _ rfl rfl]; rfl⟩

/-! ## Outcomes of `/bulk-check-websites` -/

/-- C6: in `/bulk-check-websites`, for every item: when fetch returns a response
with non-ok status s the outcome is `accessible == false`, `success == true`,
`status == s`, without `error`; when fetch throws with message m the outcome is
`accessible == false`, `success == false`, `error == m`, without `status`.  The
`success` flag therefore tells the two cases apart. -/
theorem bulk_check_outcome_tells_http_error_from_thrown (fetch : Fetch)
    (items : List String) (delay : Option Int) (i : Fin items.length) :
    ∃ body trace o,
      bulkCheckWebsites fetch { urls := .array items, delay := delay } =
        (.json body, trace) ∧
      body.results[i.val]? = some o ∧
      (∀ r, fetch i.val items[i] checkOptions = .returned r → r.ok = false →
        o = { url := items[i], status := some r.status, statusText := some r.statusText,
              accessible := false, error := none, success := true, index := i.val }) ∧
      (∀ m, fetch i.val items[i] checkOptions = .threw m →
        o = { url := items[i], status := none, statusText := none,
              accessible := false, error := some m, success := false,
              index := i.val }) := by
  refine ⟨_, _, _, bulkCheckWebsites_array fetch items delay, outcomesFrom_at _ items i,
    ?_, ?_⟩
  · intro r hr hok
    unfold bulkCheckAttempt
    rw [hr]
    simp [hok]
  · intro m hm
    unfold bulkCheckAttempt
    rw [hm]

/-- C6 at concrete inputs: a one-item check against a server answering 404, and
one against a network that throws. -/
theorem bulk_check_outcome_tells_http_error_from_thrown_witness :
    (∃ body trace,
        bulkCheckWebsites fetchNotFound { urls := .array ["https://notfound.example"],
                                          delay := none } = (.json body, trace) ∧
        body.results[0]? = some
          { url := "https://notfound.example", status := some 404,
            statusText := some "Not Found", accessible := false, error := none,
            success := true, index := 0 }) ∧
    (∃ body trace,
        bulkCheckWebsites fetchDown { urls := .array ["https://nodns.example"],
                                      delay := none } = (.json body, trace) ∧
        body.results[0]? = some
          { url := "https://nodns.example", status := none, statusText := none,
            accessible := false, error := some "getaddrinfo ENOTFOUND",
            success := false, index := 0 }) := by
  constructor
  · obtain ⟨body, trace, o, hrun, hres, hnonok, _⟩ :=
      bulk_check_outcome_tells_http_error_from_thrown fetchNotFound
        ["https://notfound.example"] none ⟨0, by decide⟩
    exact ⟨body, trace, hrun, by rw [hres, hnonok _ rfl rfl]; rfl⟩
  · obtain ⟨body, trace, o, hrun, hres, _, hthrew⟩ :=
      bulk_check_outcome_tells_http_error_from_thrown fetchDown
        ["https://nodns.example"] none ⟨0, by decide⟩
    exact ⟨body, trace, hrun, by rw [hres, hthrew _ rfl]; rfl⟩

/-! ## `GET /proxy` on a non-ok response -/

theorem httpErrorMessage_ne_empty (r : Response) :
    "HTTP " ++ toString r.status ++ ": " ++ r.statusText ≠ "" := by
  intro h
  have hlen := congrArg String.length h
  simp only [String.length_append] at hlen
  have h5 : "HTTP ".length = 5 := by decide
  have h0 : "".length = 0 := by decide
  omega

/-- C8: for every non-empty url whose fetch returns a response with a non-ok
status, `GET /proxy` replies with the failure object whose `url` is the
requested url and whose `details` is the non-empty string
'HTTP <status>: <statusText>'; the only effect is the fetch call, so the
response body is never read. -/
theorem proxy_non_ok_response_gives_failure_object (fetch : Fetch) (url : String)
    (r : Response) (hurl : url ≠ "") (hfetch : fetch 0 url proxyOptions = .returned r)
    (hok : r.ok = false) :
    ∃ details,
      proxy fetch (some url) =
        (.failed "Failed to fetch URL" details url, [.fetch url proxyOptions]) ∧
      details = "HTTP " ++ toString r.status ++ ": " ++ r.statusText ∧
      details ≠ "" ∧
      Effect.readText ∉ (proxy fetch (some url)).2 := by
  have hrun : proxy fetch (some url) =
      (.failed "Failed to fetch URL" ("HTTP " ++ toString r.status ++ ": " ++ r.statusText)
        url, [.fetch url proxyOptions]) := by
    simp [proxy, hurl, hfetch, hok, httpErrorMessage]
  refine ⟨_, hrun, rfl, httpErrorMessage_ne_empty r, ?_⟩
  rw [hrun]
  simp

/-- C8 at a concrete input: a server answering 500 for `https://broken.example`. -/
theorem proxy_non_ok_response_gives_failure_object_witness :
    "https://broken.example" ≠ "" ∧
      fetchServerError 0 "https://broken.example" proxyOptions =
        .returned { ok := false, status := 500, statusText := "Internal Server Error",
                    text := .ok "oops" } ∧
      ∃ details,
        proxy fetchServerError (some "https://broken.example") =
          (.failed "Failed to fetch URL" details "https://broken.example",
            [.fetch "https://broken.example" proxyOptions]) ∧
        details = "HTTP " ++ toString 500 ++ ": " ++ "Internal Server Error" ∧
        details ≠ "" ∧
        Effect.readText ∉ (proxy fetchServerError (some "https://broken.example")).2 :=
  ⟨by decide, rfl,
    proxy_non_ok_response_gives_failure_object fetchServerError "https://broken.example"
      { ok := false, status := 500, statusText := "Internal Server Error",
        text := .ok "oops" } (by decide) rfl rfl⟩

/-! ## Status and error are exclusive -/

/-- C10: every outcome recorded by either batch handler has exactly one of
`status` and `error` populated, never both and never neither; in `/bulk-proxy`
an outcome with a non-null `html` has `status` populated and `success == true`. -/
theorem batch_outcome_has_exactly_one_of_status_and_error (fetch : Fetch)
    (items : List String) (delay : Option Int) :
    (∃ body trace,
        bulkProxy fetch { urls := .array items, delay := delay } = (.json body, trace) ∧
        ∀ o ∈ body.results,
          ((o.status ≠ none ∧ o.error = none) ∨ (o.status = none ∧ o.error ≠ none)) ∧
          (o.html ≠ none → o.status ≠ none ∧ o.success = true)) ∧
    (∃ body trace,
        bulkCheckWebsites fetch { urls := .array items, delay := delay } =
          (.json body, trace) ∧
        ∀ o ∈ body.results,
          (o.status ≠ none ∧ o.error = none) ∨ (o.status = none ∧ o.error ≠ none)) := by
  constructor
  · refine ⟨_, _, bulkProxy_array fetch items delay, ?_⟩
    intro o ho
    obtain ⟨c, url, k, rfl⟩ := outcomesFrom_mem _ _ _ _ ho
    unfold bulkProxyAttempt
    split
    · simp
    · split
      · split
        · simp
        · simp_all
      · simp
  · refine ⟨_, _, bulkCheckWebsites_array fetch items delay, ?_⟩
    intro o ho
    obtain ⟨c, url, k, rfl⟩ := outcomesFrom_mem _ _ _ _ ho
    unfold bulkCheckAttempt
    split <;> simp

/-! ## The single-url handlers as one-item batches -/

theorem outcomesFrom_single {α : Type} (attempt : Nat → String → Nat → α × List Effect)
    (url : String) : outcomesFrom attempt 0 [url] = [(attempt 0 url 0).1] := rfl

theorem effectsFrom_single {α : Type} (attempt : Nat → String → Nat → α × List Effect)
    (delay : Int) (url : String) :
    effectsFrom attempt [url].length delay 0 [url] = (attempt 0 url 0).2 := by
  simp [effectsFrom]

theorem checkWebsite_vs_attempt (fetch : Fetch) (now : String) (url : String)
    (hurl : url ≠ "") :
    (checkWebsite fetch now (some url)).2 = (bulkCheckAttempt fetch 0 url 0).2 ∧
      delays (checkWebsite fetch now (some url)).2 = [] ∧
      ∃ r, (checkWebsite fetch now (some url)).1 = .json r ∧
        r.url = (bulkCheckAttempt fetch 0 url 0).1.url ∧
        r.accessible = (bulkCheckAttempt fetch 0 url 0).1.accessible ∧
        r.status = (bulkCheckAttempt fetch 0 url 0).1.status ∧
        r.statusText = (bulkCheckAttempt fetch 0 url 0).1.statusText ∧
        r.error = (bulkCheckAttempt fetch 0 url 0).1.error := by
  simp only [checkWebsite, hurl, if_false, bulkCheckAttempt]
  cases fetch 0 url checkOptions with
  | returned r => exact ⟨rfl, rfl, _, rfl, rfl, rfl, rfl, rfl, rfl⟩
  | threw m => exact ⟨rfl, rfl, _, rfl, rfl, rfl, rfl, rfl, rfl⟩

theorem proxy_vs_attempt (fetch : Fetch) (url : String) (hurl : url ≠ "") :
    (proxy fetch (some url)).2 = (bulkProxyAttempt fetch 0 url 0).2 ∧
      delays (proxy fetch (some url)).2 = [] ∧
      (∀ b, (proxy fetch (some url)).1 = .sent b ↔
        ((bulkProxyAttempt fetch 0 url 0).1.success = true ∧
          (bulkProxyAttempt fetch 0 url 0).1.html = some b)) ∧
      ((¬ ∃ b, (bulkProxyAttempt fetch 0 url 0).1.success = true ∧
          (bulkProxyAttempt fetch 0 url 0).1.html = some b) →
        ∃ details, (proxy fetch (some url)).1 =
          .failed "Failed to fetch URL" details url) := by
  simp only [proxy, hurl, if_false, bulkProxyAttempt]
  cases fetch 0 url proxyOptions with
  | threw m => exact ⟨rfl, rfl, by simp, by simp⟩
  | returned r =>
    rcases r with ⟨ok, status, statusText, text⟩
    cases ok <;> cases text <;> exact ⟨rfl, rfl, by simp, by simp⟩

/-- C9: for every non-empty url and every fetch oracle, the one-item batch over
`[url]` has `total == 1`, exactly one outcome and no delay, and performs the
same effects as the single-url handler; `GET /check-website` reports the same
`url`, `accessible`, `status`, `statusText` and `error` as that outcome of
`/bulk-check-websites`; `GET /proxy` sends body text b exactly when that
outcome of `/bulk-proxy` has `success == true` and `html == b`, and replies
with the failure object otherwise. -/
theorem single_url_handlers_agree_with_one_item_batch (fetch : Fetch) (now : String)
    (url : String) (delay : Option Int) (hurl : url ≠ "") :
    (∃ body o r,
        bulkCheckWebsites fetch { urls := .array [url], delay := delay } =
          (.json body, (checkWebsite fetch now (some url)).2) ∧
        body.total = 1 ∧ body.results = [o] ∧
        delays (checkWebsite fetch now (some url)).2 = [] ∧
        (checkWebsite fetch now (some url)).1 = .json r ∧
        r.url = o.url ∧ r.accessible = o.accessible ∧ r.status = o.status ∧
        r.statusText = o.statusText ∧ r.error = o.error) ∧
    (∃ body o,
        bulkProxy fetch { urls := .array [url], delay := delay } =
          (.json body, (proxy fetch (some url)).2) ∧
        body.total = 1 ∧ body.results = [o] ∧
        delays (proxy fetch (some url)).2 = [] ∧
        (∀ b, (proxy fetch (some url)).1 = .sent b ↔
          (o.success = true ∧ o.html = some b)) ∧
        ((¬ ∃ b, o.success = true ∧ o.html = some b) →
          ∃ details, (proxy fetch (some url)).1 =
            .failed "Failed to fetch URL" details url)) := by
  obtain ⟨hct, hcd, r, hcr, hc⟩ := checkWebsite_vs_attempt fetch now url hurl
  obtain ⟨hpt, hpd, hps, hpf⟩ := proxy_vs_attempt fetch url hurl
  constructor
  · refine ⟨{ total := 1
              accessible := ([(bulkCheckAttempt fetch 0 url 0).1].filter
                (fun r => r.accessible)).length
              inaccessible := ([(bulkCheckAttempt fetch 0 url 0).1].filter
                (fun r => !r.accessible)).length
              results := [(bulkCheckAttempt fetch 0 url 0).1] },
      (bulkCheckAttempt fetch 0 url 0).1, r, ?_, rfl, rfl, hcd, hcr, hc⟩
    rw [bulkCheckWebsites_array, effectsFrom_single, outcomesFrom_single, hct]
    rfl
  · refine ⟨{ total := 1
              success := ([(bulkProxyAttempt fetch 0 url 0).1].filter
                (fun r => r.success)).length
              failed := ([(bulkProxyAttempt fetch 0 url 0).1].filter
                (fun r => !r.success)).length
              results := [(bulkProxyAttempt fetch 0 url 0).1] },
      (bulkProxyAttempt fetch 0 url 0).1, ?_, rfl, rfl, hpd, hps, hpf⟩
    rw [bulkProxy_array, effectsFrom_single, outcomesFrom_single, hpt]
    rfl

/-- C9 at a concrete input: `https://ok.example` served with 200 and body `hello`. -/
theorem single_url_handlers_agree_with_one_item_batch_witness :
    "https://ok.example" ≠ "" ∧
    (∃ body o r,
        bulkCheckWebsites fetchHello { urls := .array ["https://ok.example"], delay := some 500 } =
          (.json body, (checkWebsite fetchHello "2024-01-01T00:00:00.000Z"
            (some "https://ok.example")).2) ∧
        body.total = 1 ∧ body.results = [o] ∧
        delays (checkWebsite fetchHello "2024-01-01T00:00:00.000Z"
          (some "https://ok.example")).2 = [] ∧
        (checkWebsite fetchHello "2024-01-01T00:00:00.000Z"
          (some "https://ok.example")).1 = .json r ∧
        r.url = o.url ∧ r.accessible = o.accessible ∧ r.status = o.status ∧
        r.statusText = o.statusText ∧ r.error = o.error) ∧
    (∃ body o,
        bulkProxy fetchHello { urls := .array ["https://ok.example"], delay := some 500 } =
          (.json body, (proxy fetchHello (some "https://ok.example")).2) ∧
        body.total = 1 ∧ body.results = [o] ∧
        delays (proxy fetchHello (some "https://ok.example")).2 = [] ∧
        (∀ b, (proxy fetchHello (some "https://ok.example")).1 = .sent b ↔
          (o.success = true ∧ o.html = some b)) ∧
        ((¬ ∃ b, o.success = true ∧ o.html = some b) →
          ∃ details, (proxy fetchHello (some "https://ok.example")).1 =
            .failed "Failed to fetch URL" details "https://ok.example")) :=
  ⟨by decide,
    single_url_handlers_agree_with_one_item_batch fetchHello "2024-01-01T00:00:00.000Z"
      "https://ok.example" (some 500) (by decide)⟩

end ProxyServer
